import Mathlib

/-!
# Verification of the Firejail sandbox execution engine (`sandbox_api.py`)

A shallow embedding of the single source file `src/sandbox/sandbox_api.py`:
a FastAPI endpoint `run_code` that executes submitted Python code inside a
fresh Firejail sandbox via the coroutine `_run_in_firejail`.

Modelling choices:

* The ambient nondeterminism of a real execution (the fresh directory name
  chosen by `tempfile.mkdtemp`, the fate of the spawned process, its captured
  output and its elapsed wall-clock time) is passed in as explicit parameters
  (`dir : Nat`, `ProcOutcome`).  Given those, both functions are deterministic
  and are embedded as pure Lean functions.
* Side effects on the world (semaphore acquire/release, directory creation and
  removal, process spawn/kill/wait, data piped to the process) are recorded as
  an explicit trace of `Event`s, in the order the source performs them.
* Python floats that are only stored, never computed with, are modelled as `ℚ`.
* A Python exception escaping a function is modelled with an explicit
  `raised`/`unhandled` constructor: FastAPI turns an exception that escapes the
  handler into a transport-level 500 error, not a JSON response.
* The timeout branch of `_run_in_firejail` returns a plain Python dict with
  only the keys `status`, `stdout`, `stderr`; pydantic validates it into
  `CommandRunResult`, defaulting the missing `execution_time` and `return_code`
  fields to `None`.  The embedding returns that validated record directly.
* `RunCodeResponse` has no `created_at` field; the extra `created_at` keyword
  argument passed by `run_code` is ignored by pydantic and is not modelled.
  The two `print` calls are log-only side effects and are not modelled.
-/

namespace SandboxApi

/-- `RunStatus` (sandbox_api.py lines 51–57): the coarse external status. -/
inductive RunStatus where
  | Success
  | Failed
  | SandboxError
deriving DecidableEq, Repr

/-- `CommandRunStatus` (lines 60–63): the per-command terminal state. -/
inductive CommandRunStatus where
  | Finished
  | Error
  | TimeLimitExceeded
deriving DecidableEq, Repr

/-- `CommandRunResult` (lines 65–70): the nested per-command record.
All fields except `status` default to `None` in the pydantic model. -/
structure CommandRunResult where
  status : CommandRunStatus
  execution_time : Option ℚ := none
  return_code : Option Int := none
  stdout : Option String := none
  stderr : Option String := none
deriving DecidableEq, Repr

/-- `RunCodeRequest` (lines 72–79): the incoming JSON body. -/
structure RunCodeRequest where
  code : String
  stdin : String := ""
  language : String := "python"
  compile_timeout : ℚ := 1
  run_timeout : ℚ := 3
deriving DecidableEq, Repr

/-- `RunCodeResponse` (lines 81–87): the JSON response to the client. -/
structure RunCodeResponse where
  status : RunStatus
  message : String
  compile_result : Option CommandRunResult := none
  run_result : Option CommandRunResult := none
  executor_pod_name : Option String := none
  files : List (String × String) := []
deriving DecidableEq, Repr

/-- The fate of the spawned sandbox process, an input of the model:
it either exits (before the deadline) with a return code, captured output and
an elapsed wall-clock time, or the `asyncio.wait_for` deadline elapses first,
or `asyncio.create_subprocess_exec` itself raises (firejail missing,
permission error).  `elapsed` records how long the process actually ran; the
source never measures it. -/
inductive ProcOutcome where
  | exited (returncode : Int) (stdout stderr : String) (elapsed : ℚ)
  | timeout
  | spawnFailure (msg : String)
deriving DecidableEq, Repr

/-- Whether the outcome is a spawn failure. -/
def ProcOutcome.isSpawnFailure : ProcOutcome → Bool
  | .spawnFailure _ => true
  | _ => false

/-- One observable side effect of handling a request, in program order. -/
inductive Event where
  | acquirePermit
  | mkWorkspace (dir : Nat)
  | writeSource (dir : Nat) (code : String)
  | spawnProc (dir : Nat)
  | communicate (input : Option String)
  | killProc
  | waitProc
  | rmWorkspace (dir : Nat)
  | releasePermit
deriving DecidableEq, Repr

/-- The environment-variable whitelist (line 120). -/
def whitelist : List String := ["PATH", "LANG", "LC_ALL", "PYTHONIOENCODING", "TERM"]

/-- `clean_env` (line 121): `{k: os.environ[k] for k in whitelist if k in os.environ}`.
The host environment `environ` is a partial map from names to values. -/
def clean_env (environ : String → Option String) : List (String × String) :=
  whitelist.filterMap fun k => (environ k).map fun v => (k, v)

/-- `input_bytes` (line 135):
`(stdin_data + "\n").encode() if len(stdin_data) > 0 else None`. -/
def input_bytes (stdin_data : String) : Option String :=
  if stdin_data.length > 0 then some (stdin_data ++ "\n") else none

/-- Result of `_run_in_firejail`: either it returns the pair
`(RunStatus, CommandRunResult)`, or an exception escapes it. -/
inductive FirejailResult where
  | ok (status : RunStatus) (result : CommandRunResult)
  | raised (msg : String)
deriving DecidableEq, Repr

/-- `_run_in_firejail` (lines 99–163).  Steps, in source order:
1. `tempfile.mkdtemp` creates the workspace (`mkWorkspace dir`) and the code
   is written to `main.py` inside it (`writeSource`);
2. `asyncio.create_subprocess_exec` spawns firejail (`spawnProc`); if it
   raises, the exception escapes — note no cleanup runs on this path;
3. `proc.communicate(input=input_bytes stdin_data)` under `asyncio.wait_for`;
4. on `asyncio.TimeoutError`: `proc.kill()`, `await proc.wait()`,
   `shutil.rmtree(workdir)`, and the function returns `Failed` with a
   `TimeLimitExceeded` dict whose only keys are status/stdout/stderr;
5. otherwise: `shutil.rmtree(workdir)` and the function returns
   `Success`/`Failed` by `proc.returncode == 0`, with `execution_time=0`. -/
def _run_in_firejail (dir : Nat) (code : String) (stdin_data : String)
    (outcome : ProcOutcome) : List Event × FirejailResult :=
  match outcome with
  | .spawnFailure msg =>
      ([.mkWorkspace dir, .writeSource dir code], .raised msg)
  | .timeout =>
      ([.mkWorkspace dir, .writeSource dir code, .spawnProc dir,
        .communicate (input_bytes stdin_data), .killProc, .waitProc,
        .rmWorkspace dir],
       .ok .Failed
         { status := .TimeLimitExceeded, stdout := some "", stderr := some "Timeout\n" })
  | .exited rc out err _elapsed =>
      ([.mkWorkspace dir, .writeSource dir code, .spawnProc dir,
        .communicate (input_bytes stdin_data), .rmWorkspace dir],
       .ok (if rc = 0 then .Success else .Failed)
         { status := if rc = 0 then .Finished else .Error,
           execution_time := some 0,
           return_code := some rc,
           stdout := some out,
           stderr := some err })

/-- What the `run_code` handler delivers: a JSON response, a deliberate
`HTTPException` (FastAPI turns it into a client-error response with the given
status code), or an exception that escapes the handler (a transport-level
failure, surfaced by FastAPI as a 500, not as a `RunCodeResponse`). -/
inductive RunCodeOutcome where
  | response (r : RunCodeResponse)
  | httpError (code : Nat) (msg : String)
  | unhandled (msg : String)
deriving DecidableEq, Repr

/-- `run_code` (lines 172–190), the `POST /faas/sandbox/run_code` handler:
1. if `req.language != "python"`, raise `HTTPException(400, ...)` — before
   the semaphore is touched and before any workspace exists;
2. `async with POOL:` acquires the semaphore, awaits `_run_in_firejail`, and
   releases the semaphore on scope exit — also when an exception propagates;
3. wrap the pair into a `RunCodeResponse`.  An exception raised by
   `_run_in_firejail` escapes the handler unhandled. -/
def run_code (req : RunCodeRequest) (dir : Nat) (outcome : ProcOutcome) :
    List Event × RunCodeOutcome :=
  if req.language ≠ "python" then
    ([], .httpError 400 "Only Python is supported in this minimal demo.")
  else
    let fj := _run_in_firejail dir req.code req.stdin outcome
    match fj.2 with
    | .raised msg =>
        (.acquirePermit :: fj.1 ++ [.releasePermit], .unhandled msg)
    | .ok command_result result =>
        (.acquirePermit :: fj.1 ++ [.releasePermit],
         .response
           { status := command_result,
             message := "",
             compile_result := none,
             run_result := some result,
             executor_pod_name := some "",
             files := [] })

/-- Whether a handler outcome is a JSON response. -/
def RunCodeOutcome.isResponse : RunCodeOutcome → Bool
  | .response _ => true
  | _ => false

/-! ## Helper lemmas -/

/-- A nonempty string has positive length. -/
theorem length_pos_of_ne_empty (s : String) (h : s ≠ "") : 0 < s.length := by
  obtain ⟨data⟩ := s
  cases data with
  | nil => exact absurd rfl h
  | cons c cs => simp [String.length]

/-! ## Claims -/

/-- C1 (counterexample): when `asyncio.create_subprocess_exec` raises (e.g.
firejail is not installed), the exception propagates out of
`_run_in_firejail` before any `shutil.rmtree` runs, so the workspace
directory created by `tempfile.mkdtemp` is leaked: the trace holds one
`mkWorkspace` event and zero `rmWorkspace` events. -/
theorem workspace_leaked_on_spawn_failure :
    ((run_code { code := "print(2+2)" } 0 (.spawnFailure "FileNotFoundError")).1).count
        (Event.mkWorkspace 0) = 1 ∧
    ((run_code { code := "print(2+2)" } 0 (.spawnFailure "FileNotFoundError")).1).count
        (Event.rmWorkspace 0) = 0 := by decide

/-- C1 (amended): for every validated request exactly one workspace is
created, and it is destroyed exactly once when the process exits (any code)
or times out; but when the sandbox process fails to spawn, the workspace is
never destroyed. -/
theorem workspace_create_destroy (req : RunCodeRequest) (dir : Nat)
    (outcome : ProcOutcome) (hlang : req.language = "python") :
    (run_code req dir outcome).1.count (Event.mkWorkspace dir) = 1 ∧
    (run_code req dir outcome).1.count (Event.rmWorkspace dir) =
      (if outcome.isSpawnFailure then 0 else 1) := by
  cases outcome <;>
    simp [run_code, _run_in_firejail, hlang, ProcOutcome.isSpawnFailure,
      List.count_cons, List.count_append]

/-- C1 witness: a concrete successful execution creates and destroys exactly
one workspace. -/
theorem workspace_create_destroy_witness :
    (run_code { code := "x=1" } 7 (.exited 0 "" "" 1)).1.count (Event.mkWorkspace 7) = 1 ∧
    (run_code { code := "x=1" } 7 (.exited 0 "" "" 1)).1.count (Event.rmWorkspace 7) = 1 :=
  workspace_create_destroy { code := "x=1" } 7 (.exited 0 "" "" 1) rfl

/-- C2 (counterexample): when the sandbox process cannot be spawned, the
handler delivers no response at all — the exception escapes unhandled (a
transport-level 500), so no `SandboxError` status is delivered via the
status field. -/
theorem spawn_failure_no_sandbox_error_response :
    (run_code { code := "x=1" } 0 (.spawnFailure "PermissionError")).2
        = .unhandled "PermissionError" ∧
    ((run_code { code := "x=1" } 0 (.spawnFailure "PermissionError")).2).isResponse
        = false := by decide

/-- C2 (amended): a spawn failure always propagates out of the handler as an
unhandled exception (transport-level failure); it is never surfaced via the
status field. -/
theorem spawn_failure_unhandled (req : RunCodeRequest) (dir : Nat) (msg : String)
    (hlang : req.language = "python") :
    (run_code req dir (.spawnFailure msg)).2 = .unhandled msg := by
  simp [run_code, _run_in_firejail, hlang]

/-- C2 witness: a concrete spawn failure escapes unhandled. -/
theorem spawn_failure_unhandled_witness :
    (run_code { code := "x=1" } 3 (.spawnFailure "boom")).2 = .unhandled "boom" :=
  spawn_failure_unhandled { code := "x=1" } 3 "boom" rfl

/-- C3: the outcome-to-status mapping of every emitted response is exactly:
exit code 0 → `Success` with `run_result.status = Finished` and
`return_code = 0`; non-zero exit → `Failed` with `run_result.status = Error`
and `return_code` the actual exit code; timeout → `Failed` with the nested
result still reporting `TimeLimitExceeded`; and every emitted status is
`Success` or `Failed` — no other statuses occur. -/
theorem status_mapping (req : RunCodeRequest) (dir : Nat) (outcome : ProcOutcome)
    (r : RunCodeResponse) (res : CommandRunResult)
    (hr : (run_code req dir outcome).2 = .response r)
    (hres : r.run_result = some res) :
    ((∃ out err el, outcome = .exited 0 out err el) →
        r.status = .Success ∧ res.status = .Finished ∧ res.return_code = some 0) ∧
    (∀ rc out err el, outcome = .exited rc out err el → rc ≠ 0 →
        r.status = .Failed ∧ res.status = .Error ∧ res.return_code = some rc) ∧
    (outcome = .timeout →
        r.status = .Failed ∧ res.status = .TimeLimitExceeded) ∧
    (r.status = .Success ∨ r.status = .Failed) := by
  by_cases hlang : req.language = "python"
  · cases outcome with
    | spawnFailure msg => simp [run_code, _run_in_firejail, hlang] at hr
    | timeout =>
        simp [run_code, _run_in_firejail, hlang] at hr
        subst hr
        simp at hres
        subst hres
        simp
    | exited rc out err el =>
        by_cases hrc : rc = 0 <;>
          · simp [run_code, _run_in_firejail, hlang, hrc] at hr
            subst hr
            simp at hres
            subst hres
            simp [hrc]
            intros
            omega
  · simp [run_code, hlang] at hr

/-- C3 witness: a concrete zero-exit run yields `Success`/`Finished`/code 0. -/
theorem status_mapping_witness :
    RunCodeResponse.status
        { status := .Success, message := "",
          run_result := some { status := .Finished, execution_time := some 0,
                               return_code := some 0, stdout := some "4\n",
                               stderr := some "" },
          executor_pod_name := some "", files := [] } = .Success ∧
    CommandRunResult.status
        { status := .Finished, execution_time := some 0, return_code := some 0,
          stdout := some "4\n", stderr := some "" } = .Finished ∧
    CommandRunResult.return_code
        { status := .Finished, execution_time := some 0, return_code := some 0,
          stdout := some "4\n", stderr := some "" } = some 0 :=
  (status_mapping { code := "print(2+2)" } 0 (.exited 0 "4\n" "" 2)
      { status := .Success, message := "",
        run_result := some { status := .Finished, execution_time := some 0,
                             return_code := some 0, stdout := some "4\n",
                             stderr := some "" },
        executor_pod_name := some "", files := [] }
      { status := .Finished, execution_time := some 0, return_code := some 0,
        stdout := some "4\n", stderr := some "" }
      (by decide) rfl).1 ⟨"4\n", "", 2, rfl⟩

/-- C4: on timeout the process is killed (`killProc`), the supervisor waits
for termination (`waitProc`), the workspace is still removed, and the
response is `Failed` with `run_result` reporting `TimeLimitExceeded`, empty
stdout, the fixed stderr message `"Timeout\n"`, and no return code. -/
theorem timeout_behavior (req : RunCodeRequest) (dir : Nat)
    (hlang : req.language = "python") :
    run_code req dir .timeout =
      ([.acquirePermit, .mkWorkspace dir, .writeSource dir req.code, .spawnProc dir,
        .communicate (input_bytes req.stdin), .killProc, .waitProc, .rmWorkspace dir,
        .releasePermit],
       .response
         { status := .Failed, message := "",
           run_result := some { status := .TimeLimitExceeded, execution_time := none,
                                return_code := none, stdout := some "",
                                stderr := some "Timeout\n" },
           executor_pod_name := some "", files := [] }) := by
  simp [run_code, _run_in_firejail, hlang]

/-- C4 witness: the timeout behavior at a concrete request. -/
theorem timeout_behavior_witness :
    run_code { code := "time.sleep(5)", run_timeout := 1 } 2 .timeout =
      ([.acquirePermit, .mkWorkspace 2, .writeSource 2 "time.sleep(5)", .spawnProc 2,
        .communicate (input_bytes ""), .killProc, .waitProc, .rmWorkspace 2,
        .releasePermit],
       .response
         { status := .Failed, message := "",
           run_result := some { status := .TimeLimitExceeded, execution_time := none,
                                return_code := none, stdout := some "",
                                stderr := some "Timeout\n" },
           executor_pod_name := some "", files := [] }) :=
  timeout_behavior { code := "time.sleep(5)", run_timeout := 1 } 2 rfl

/-- C5: a request whose language is not `"python"` is rejected with
`HTTPException(400, ...)` and an empty trace: no permit acquired, no
workspace created, no process spawned. -/
theorem unsupported_language_rejected (req : RunCodeRequest) (dir : Nat)
    (outcome : ProcOutcome) (hlang : req.language ≠ "python") :
    run_code req dir outcome =
      ([], .httpError 400 "Only Python is supported in this minimal demo.") := by
  simp [run_code, hlang]

/-- C5 witness: a concrete non-python request is rejected with no events. -/
theorem unsupported_language_rejected_witness :
    run_code { code := "int main(){}", language := "cpp" } 0 (.exited 0 "" "" 1) =
      ([], .httpError 400 "Only Python is supported in this minimal demo.") :=
  unsupported_language_rejected { code := "int main(){}", language := "cpp" } 0
    (.exited 0 "" "" 1) (by decide)

/-- C6: on every code path the trace balances semaphore permits — the number
of `acquirePermit` events equals the number of `releasePermit` events (so the
outstanding-permit count returns to its pre-request value), and whenever a
permit is acquired it is released exactly once, including on timeout and on
launch failure. -/
theorem permit_balance (req : RunCodeRequest) (dir : Nat) (outcome : ProcOutcome) :
    (run_code req dir outcome).1.count Event.acquirePermit =
      (run_code req dir outcome).1.count Event.releasePermit ∧
    (Event.acquirePermit ∈ (run_code req dir outcome).1 →
      (run_code req dir outcome).1.count Event.releasePermit = 1) := by
  by_cases hlang : req.language = "python"
  · cases outcome <;>
      simp [run_code, _run_in_firejail, hlang, List.count_cons, List.count_append]
  · simp [run_code, hlang]

/-- C6 witness: a concrete spawn-failure request still releases its permit
exactly once. -/
theorem permit_balance_witness :
    (run_code { code := "x" } 2 (.spawnFailure "err")).1.count Event.releasePermit = 1 :=
  (permit_balance { code := "x" } 2 (.spawnFailure "err")).2 (by decide)

/-- C7: the environment handed to the subprocess contains a pair `(k, v)`
exactly when `k` is in the fixed whitelist and the host environment maps `k`
to `v` — values pass through unchanged, and nothing outside the whitelist
passes through. -/
theorem clean_env_characterization (environ : String → Option String) (k v : String) :
    (k, v) ∈ clean_env environ ↔ k ∈ whitelist ∧ environ k = some v := by
  simp only [clean_env, List.mem_filterMap, Option.map_eq_some']
  constructor
  · rintro ⟨a, ha, w, hw, heq⟩
    obtain ⟨rfl, rfl⟩ := Prod.mk.injEq .. ▸ heq
    exact ⟨ha, hw⟩
  · rintro ⟨hk, hv⟩
    exact ⟨k, hk, v, hv, rfl⟩

/-- C7 witness: with a concrete host environment, `PATH` passes through with
its value unchanged and the non-whitelisted `HOME` does not. -/
theorem clean_env_witness :
    ("PATH", "/usr/bin:/bin") ∈
        clean_env (fun k => if k = "PATH" then some "/usr/bin:/bin"
                            else if k = "HOME" then some "/root" else none) ∧
    ("HOME", "/root") ∉
        clean_env (fun k => if k = "PATH" then some "/usr/bin:/bin"
                            else if k = "HOME" then some "/root" else none) :=
  ⟨(clean_env_characterization _ "PATH" "/usr/bin:/bin").mpr ⟨by decide, by decide⟩,
   fun h =>
     absurd ((clean_env_characterization _ "HOME" "/root").mp h).1 (by decide)⟩

/-- C8 (counterexample): a process that exits 0 after 5 seconds of wall-clock
time is reported with `execution_time = 0`, not 5 — the source hardcodes
`execution_time=0` and never measures elapsed time. -/
theorem execution_time_counterexample :
    (run_code { code := "y=1" } 0 (.exited 0 "" "" 5)).2 =
      .response { status := .Success, message := "",
                  run_result := some { status := .Finished, execution_time := some 0,
                                       return_code := some 0, stdout := some "",
                                       stderr := some "" },
                  executor_pod_name := some "", files := [] } ∧
    some (0 : ℚ) ≠ some (5 : ℚ) := by decide

/-- C8 (amended): for every execution whose process exits before the
deadline, the returned `run_result` reports `execution_time = 0` regardless
of the actual elapsed wall-clock time. -/
theorem execution_time_is_zero (req : RunCodeRequest) (dir : Nat) (rc : Int)
    (out err : String) (elapsed : ℚ) (r : RunCodeResponse) (res : CommandRunResult)
    (hlang : req.language = "python")
    (hr : (run_code req dir (.exited rc out err elapsed)).2 = .response r)
    (hres : r.run_result = some res) :
    res.execution_time = some 0 := by
  by_cases hrc : rc = 0 <;>
    · simp [run_code, _run_in_firejail, hlang, hrc] at hr
      subst hr
      simp at hres
      subst hres
      rfl

/-- C8 witness: a concrete execution that ran for 5 seconds reports
`execution_time = 0`. -/
theorem execution_time_is_zero_witness :
    CommandRunResult.execution_time
        { status := .Finished, execution_time := some 0, return_code := some 0,
          stdout := some "", stderr := some "" } = some 0 :=
  execution_time_is_zero { code := "y=1" } 0 0 "" "" 5
    { status := .Success, message := "",
      run_result := some { status := .Finished, execution_time := some 0,
                           return_code := some 0, stdout := some "",
                           stderr := some "" },
      executor_pod_name := some "", files := [] }
    { status := .Finished, execution_time := some 0, return_code := some 0,
      stdout := some "", stderr := some "" }
    rfl (by decide) rfl

/-- C9: whenever a process is spawned, the data piped to it is
`input_bytes req.stdin`: `none` (no stdin piped) when the supplied stdin is
empty, and the stdin text with exactly one `"\n"` appended when nonempty. -/
theorem stdin_piping (req : RunCodeRequest) (dir : Nat) (outcome : ProcOutcome)
    (hlang : req.language = "python") (hsp : outcome.isSpawnFailure = false) :
    Event.communicate (input_bytes req.stdin) ∈ (run_code req dir outcome).1 ∧
    (req.stdin = "" → input_bytes req.stdin = none) ∧
    (req.stdin ≠ "" → input_bytes req.stdin = some (req.stdin ++ "\n")) := by
  refine ⟨?_, ?_, ?_⟩
  · cases outcome with
    | spawnFailure msg => simp [ProcOutcome.isSpawnFailure] at hsp
    | timeout => simp [run_code, _run_in_firejail, hlang]
    | exited rc out err el => simp [run_code, _run_in_firejail, hlang]
  · intro h
    simp [input_bytes, h]
  · intro h
    simp [input_bytes, length_pos_of_ne_empty req.stdin h]

/-- C9 witness: stdin `"5"` is piped as `"5\n"`, and empty stdin pipes
nothing. -/
theorem stdin_piping_witness :
    Event.communicate (input_bytes "5") ∈
      (run_code { code := "c", stdin := "5" } 4 (.exited 0 "5\n" "" 1)).1 ∧
    input_bytes "5" = some ("5" ++ "\n") ∧
    input_bytes "" = none :=
  ⟨(stdin_piping { code := "c", stdin := "5" } 4 (.exited 0 "5\n" "" 1) rfl rfl).1,
   (stdin_piping { code := "c", stdin := "5" } 4 (.exited 0 "5\n" "" 1) rfl rfl).2.2
     (by decide),
   (stdin_piping { code := "c", stdin := "" } 4 (.exited 0 "" "" 1) rfl rfl).2.1 rfl⟩

/-- C10: every response the handler actually returns has status `Success` or
`Failed` — no code path produces the declared `SandboxError` value. -/
theorem response_status_never_sandbox_error (req : RunCodeRequest) (dir : Nat)
    (outcome : ProcOutcome) (r : RunCodeResponse)
    (hr : (run_code req dir outcome).2 = .response r) :
    r.status = .Success ∨ r.status = .Failed := by
  by_cases hlang : req.language = "python"
  · cases outcome with
    | spawnFailure msg => simp [run_code, _run_in_firejail, hlang] at hr
    | timeout =>
        simp [run_code, _run_in_firejail, hlang] at hr
        subst hr
        simp
    | exited rc out err el =>
        by_cases hrc : rc = 0 <;>
          · simp [run_code, _run_in_firejail, hlang, hrc] at hr
            subst hr
            simp [hrc]
  · simp [run_code, hlang] at hr

/-- C10 witness: the status of a concrete emitted response is `Success` or
`Failed`. -/
theorem response_status_never_sandbox_error_witness :
    RunCodeResponse.status
        { status := .Failed, message := "",
          run_result := some { status := .TimeLimitExceeded, execution_time := none,
                               return_code := none, stdout := some "",
                               stderr := some "Timeout\n" },
          executor_pod_name := some "", files := [] } = .Success ∨
    RunCodeResponse.status
        { status := .Failed, message := "",
          run_result := some { status := .TimeLimitExceeded, execution_time := none,
                               return_code := none, stdout := some "",
                               stderr := some "Timeout\n" },
          executor_pod_name := some "", files := [] } = .Failed :=
  response_status_never_sandbox_error { code := "z" } 1 .timeout
    { status := .Failed, message := "",
      run_result := some { status := .TimeLimitExceeded, execution_time := none,
                           return_code := none, stdout := some "",
                           stderr := some "Timeout\n" },
      executor_pod_name := some "", files := [] }
    (by decide)

end SandboxApi
